import Mathlib

/-!
# Verification of the data-marketplace core

A shallow embedding of the repository's two core subsystems and the HTTP
routes that guard them, with theorems settling the specification's claims
about them:

* `IPFSMimic` (`services/ipfs_mimic.py`): the content-addressable store —
  blobs keyed by a SHA-256 content identifier, plus a metadata record per
  identifier.
* `MockBlockchainLedger` (`services/blockchain_ledger.py`): the escrow
  transaction ledger — a persisted list of transaction records and a
  dictionary of escrow entries keyed by transaction id.
* `routes/transactions.py`: the purchase / payment / cancellation endpoints
  that orchestrate the ledger.

Python `float` amounts are modelled as `Rat` (every claim about amounts is a
sign or order comparison, unaffected by rounding), the mutable JSON files as
explicit state records threaded through each operation, and each call's
`datetime.utcnow()` reading as an explicit `now : String` argument.
-/

set_option maxRecDepth 1000000

namespace Market

/-! ## SHA-256 (model of `hashlib.sha256(...).hexdigest()`)

Executable SHA-256 over byte lists, machine words as `Nat` reduced mod
`2^32`.  Both the content identifier of the store and the transaction id of
the ledger are truncations of this digest. -/

/-- Truncation to a 32-bit word. -/
def m32 (x : Nat) : Nat := x % 4294967296

/-- 32-bit right rotation. -/
def rotr (n x : Nat) : Nat := m32 ((x >>> n) ||| (x <<< (32 - n)))

/-- Logical right shift. -/
def shr (n x : Nat) : Nat := x >>> n

/-- 32-bit bitwise complement. -/
def bnot32 (x : Nat) : Nat := 4294967295 - x

def bigSigma0 (x : Nat) : Nat := (rotr 2 x) ^^^ (rotr 13 x) ^^^ (rotr 22 x)

def bigSigma1 (x : Nat) : Nat := (rotr 6 x) ^^^ (rotr 11 x) ^^^ (rotr 25 x)

def smallSigma0 (x : Nat) : Nat := (rotr 7 x) ^^^ (rotr 18 x) ^^^ (shr 3 x)

def smallSigma1 (x : Nat) : Nat := (rotr 17 x) ^^^ (rotr 19 x) ^^^ (shr 10 x)

def ch (x y z : Nat) : Nat := (x &&& y) ^^^ ((bnot32 x) &&& z)

def maj (x y z : Nat) : Nat := (x &&& y) ^^^ (x &&& z) ^^^ (y &&& z)

/-- Value of a lowercase hexadecimal digit. -/
def hexVal (c : Char) : Nat := if 97 <= c.toNat then c.toNat - 87 else c.toNat - 48

/-- Read a character list as consecutive 8-digit hexadecimal 32-bit words. -/
def hexWords : List Char -> List Nat
  | c0 :: c1 :: c2 :: c3 :: c4 :: c5 :: c6 :: c7 :: rest =>
    (List.foldl (fun acc c => 16 * acc + hexVal c) 0
      [c0, c1, c2, c3, c4, c5, c6, c7]) :: hexWords rest
  | _ => []

/-- The 64 SHA-256 round constants, concatenated as hex words. -/
def K : List Nat := hexWords "428a2f9871374491b5c0fbcfe9b5dba53956c25b59f111f1923f82a4ab1c5ed5d807aa9812835b01243185be550c7dc372be5d7480deb1fe9bdc06a7c19bf174e49b69c1efbe47860fc19dc6240ca1cc2de92c6f4a7484aa5cb0a9dc76f988da983e5152a831c66db00327c8bf597fc7c6e00bf3d5a7914706ca63511429296727b70a852e1b21384d2c6dfc53380d13650a7354766a0abb81c2c92e92722c85a2bfe8a1a81a664bc24b8b70c76c51a3d192e819d6990624f40e3585106aa07019a4c1161e376c082748774c34b0bcb5391c0cb34ed8aa4a5b9cca4f682e6ff3748f82ee78a5636f84c878148cc7020890befffaa4506cebbef9a3f7c67178f2".data

/-- The SHA-256 initial hash value, concatenated as hex words. -/
def H0 : List Nat := hexWords "6a09e667bb67ae853c6ef372a54ff53a510e527f9b05688c1f83d9ab5be0cd19".data

/-- Message schedule: extend the 16 block words by `i` further words. -/
def schedule (ws : List Nat) : Nat → List Nat
  | 0 => ws
  | n + 1 =>
    let ws' := schedule ws n
    let j := ws'.length
    let w := m32 ((smallSigma1 (ws'.getD (j - 2) 0)) + (ws'.getD (j - 7) 0) +
                  (smallSigma0 (ws'.getD (j - 15) 0)) + (ws'.getD (j - 16) 0))
    ws' ++ [w]

/-- The eight working registers of the compression function. -/
structure Regs where
  a : Nat
  b : Nat
  c : Nat
  d : Nat
  e : Nat
  f : Nat
  g : Nat
  h : Nat

/-- One SHA-256 round. -/
def round (r : Regs) (ki wi : Nat) : Regs :=
  let t1 := m32 (r.h + bigSigma1 r.e + ch r.e r.f r.g + ki + wi)
  let t2 := m32 (bigSigma0 r.a + maj r.a r.b r.c)
  ⟨m32 (t1 + t2), r.a, r.b, r.c, m32 (r.d + t1), r.e, r.f, r.g⟩

/-- Compression of one 16-word block into the running hash state. -/
def compress (hs : List Nat) (block : List Nat) : List Nat :=
  let ws := schedule block 48
  let init : Regs := ⟨hs.getD 0 0, hs.getD 1 0, hs.getD 2 0, hs.getD 3 0,
                      hs.getD 4 0, hs.getD 5 0, hs.getD 6 0, hs.getD 7 0⟩
  let fin := (List.zip K ws).foldl (fun r kw => round r kw.1 kw.2) init
  [m32 (hs.getD 0 0 + fin.a), m32 (hs.getD 1 0 + fin.b), m32 (hs.getD 2 0 + fin.c),
   m32 (hs.getD 3 0 + fin.d), m32 (hs.getD 4 0 + fin.e), m32 (hs.getD 5 0 + fin.f),
   m32 (hs.getD 6 0 + fin.g), m32 (hs.getD 7 0 + fin.h)]

/-- Big-endian byte expansion of a `Nat`, fixed width. -/
def beBytes : Nat → Nat → List Nat
  | 0, _ => []
  | n + 1, x => beBytes n (x >>> 8) ++ [x % 256]

/-- SHA-256 padding: `0x80`, zeros, then the 64-bit big-endian bit length. -/
def pad (msg : List Nat) : List Nat :=
  let l := msg.length
  let zeros := (64 - (l + 9) % 64) % 64
  msg ++ [0x80] ++ List.replicate zeros 0 ++ beBytes 8 (8 * l)

/-- Group bytes into 32-bit big-endian words. -/
def toWords : List Nat → List Nat
  | b0 :: b1 :: b2 :: b3 :: rest =>
    (b0 <<< 24 ||| b1 <<< 16 ||| b2 <<< 8 ||| b3) :: toWords rest
  | _ => []

/-- Split a word list into 16-word blocks (the padded message always is a
multiple of 16 words). -/
def toBlocksAux : Nat → List Nat → List (List Nat)
  | 0, _ => []
  | n + 1, ws => ws.take 16 :: toBlocksAux n (ws.drop 16)

def toBlocks (ws : List Nat) : List (List Nat) :=
  toBlocksAux (ws.length / 16) ws

/-- SHA-256 digest of a byte list, as the eight 32-bit hash words. -/
def sha256 (msg : List Nat) : List Nat :=
  (toBlocks (toWords (pad msg))).foldl compress H0

def hexDigit (n : Nat) : Char :=
  if n < 10 then Char.ofNat (48 + n) else Char.ofNat (87 + n)

def hexByte (n : Nat) : List Char := [hexDigit (n / 16), hexDigit (n % 16)]

def wordHex (w : Nat) : List Char :=
  hexByte (w >>> 24 % 256) ++ hexByte (w >>> 16 % 256) ++ hexByte (w >>> 8 % 256) ++ hexByte (w % 256)

/-- Model of `hashlib.sha256(msg).hexdigest()`: the digest as 64 lowercase hex characters. -/
def sha256hex (msg : List Nat) : String :=
  ⟨(sha256 msg).foldr (fun w acc => wordHex w ++ acc) []⟩

/-- UTF-8 bytes of one code point. -/
def utf8Char (c : Nat) : List Nat :=
  if c < 0x80 then [c]
  else if c < 0x800 then [0xC0 ||| (c >>> 6), 0x80 ||| (c &&& 0x3F)]
  else if c < 0x10000 then
    [0xE0 ||| (c >>> 12), 0x80 ||| ((c >>> 6) &&& 0x3F), 0x80 ||| (c &&& 0x3F)]
  else
    [0xF0 ||| (c >>> 18), 0x80 ||| ((c >>> 12) &&& 0x3F),
     0x80 ||| ((c >>> 6) &&& 0x3F), 0x80 ||| (c &&& 0x3F)]

/-- Model of `str.encode()`: the UTF-8 bytes of a string. -/
def strEncode (s : String) : List Nat :=
  (s.data.map (fun ch => utf8Char ch.toNat)).flatten

/-! ## ContentStore (`services/ipfs_mimic.py`, class `IPFSMimic`)

The store keeps one blob file `{cid}.bin` and one metadata file `{cid}.json`
per content identifier; both directories are modelled as maps from the
identifier to the stored value.  Caller metadata is an arbitrary type `M`
(the store never inspects it, it only persists it inside an enhanced
record). -/

/-- The enhanced metadata record written by `store_file`:
`{**metadata, "cid": .., "file_size": .., "stored_at": .., "file_path": ..}`. -/
structure StoredMetadata (M : Type) where
  base : M
  cid : String
  file_size : Nat
  stored_at : String
  file_path : String
deriving DecidableEq

/-- The store's persistent state: the datasets directory and the metadata
directory, each keyed by cid (file names `{cid}.bin` / `{cid}.json`). -/
structure IPFSState (M : Type) where
  files : String → Option (List Nat)
  metadata : String → Option (StoredMetadata M)

/-- Model of `IPFSMimic.compute_cid`: SHA-256 hex digest of the bytes. -/
def compute_cid (data_bytes : List Nat) : String :=
  sha256hex data_bytes

/-- Model of `IPFSMimic.store_file`: write the blob under its content identifier and
the enhanced metadata record beside it; return the cid. -/
def store_file {M : Type} (s : IPFSState M) (file_bytes : List Nat) (metadata : M)
    (now : String) : String × IPFSState M :=
  let cid := compute_cid file_bytes
  let files' := fun k => if k = cid then some file_bytes else s.files k
  let enhanced : StoredMetadata M :=
    { base := metadata
      cid := cid
      file_size := file_bytes.length
      stored_at := now
      file_path := "storage/datasets/" ++ cid ++ ".bin" }
  let metadata' := fun k => if k = cid then some enhanced else s.metadata k
  (cid, ⟨files', metadata'⟩)

/-- Model of `IPFSMimic.retrieve_file`: the blob bytes, or `None` if the file does not
exist. -/
def retrieve_file {M : Type} (s : IPFSState M) (cid : String) : Option (List Nat) :=
  s.files cid

/-- Model of `IPFSMimic.get_metadata`: the metadata record, or `None`. -/
def get_metadata {M : Type} (s : IPFSState M) (cid : String) :
    Option (StoredMetadata M) :=
  s.metadata cid

/-- Model of `IPFSMimic.delete_file`: unlink blob and metadata; report whether either
existed. -/
def delete_file {M : Type} (s : IPFSState M) (cid : String) : Bool × IPFSState M :=
  let deletedFile := (s.files cid).isSome
  let deletedMeta := (s.metadata cid).isSome
  (deletedFile || deletedMeta,
   ⟨fun k => if k = cid then none else s.files k,
    fun k => if k = cid then none else s.metadata k⟩)

/-- Model of `IPFSMimic.verify_integrity`: recompute the digest of the stored blob and
compare with the cid. -/
def verify_integrity {M : Type} (s : IPFSState M) (cid : String) : Bool :=
  match retrieve_file s cid with
  | none => false
  | some file_data => compute_cid file_data == cid

/-! ## EscrowLedger (`services/blockchain_ledger.py`, class `MockBlockchainLedger`)

`transactions.json` is a JSON array of transaction dicts, modelled as a list
of records; `escrow.json` is a dict keyed by transaction id, modelled as a
map.  Status fields keep the source's string values (`"pending"`,
`"completed"`, `"failed"`; escrow `"held"`, `"released"`, `"refunded"`).
Dict keys a record acquires only in a terminal state (`completed_at`,
`failed_at`, `failure_reason`, escrow `released_at`, `refunded_at`) are
`Option` fields, `none` while the key is absent. -/

/-- Model of `models.Transaction` as persisted in `transactions.json`. -/
structure Transaction where
  tx_id : String
  cid : String
  buyer : String
  seller : String
  amount : Rat
  timestamp : String
  status : String
  escrow_released : Bool
  completed_at : Option String := none
  failed_at : Option String := none
  failure_reason : Option String := none
deriving DecidableEq

/-- One entry of `escrow.json`, as written by `_add_to_escrow` and mutated by
`complete_transaction` / `fail_transaction`. -/
structure EscrowEntry where
  cid : String
  buyer : String
  seller : String
  amount : Rat
  created_at : String
  status : String
  released : Bool
  released_at : Option String := none
  refunded_at : Option String := none
deriving DecidableEq

/-- The ledger's persistent state: the transactions array and the escrow dict. -/
structure LedgerState where
  transactions : List Transaction
  escrow : String → Option EscrowEntry

/-- Model of `models.PurchaseRequest`. -/
structure PurchaseRequest where
  cid : String
  buyer : String
  amount : Rat

/-- Python's f-string rendering of the request amount inside
`generate_tx_id`'s hash input, modelled on the canonical rational
representation (the exact digits feed only the hash and matter to no claim). -/
def amountRepr (a : Rat) : String :=
  if a.den = 1 then toString a.num else toString a.num ++ "/" ++ toString a.den

/-- Model of `MockBlockchainLedger.generate_tx_id`: the first 16 hex characters of
`sha256(f"{cid}{buyer}{amount}{datetime.utcnow().isoformat()}")`; the
creation instant is the explicit `now` argument. -/
def generate_tx_id (cid buyer : String) (amount : Rat) (now : String) : String :=
  (sha256hex (strEncode (cid ++ buyer ++ amountRepr amount ++ now))).take 16

/-- Model of `MockBlockchainLedger._add_to_escrow`: insert a `"held"` escrow entry for
the transaction. -/
def add_to_escrow (s : LedgerState) (t : Transaction) : LedgerState :=
  { s with
    escrow := fun k =>
      if k = t.tx_id then
        some { cid := t.cid, buyer := t.buyer, seller := t.seller,
               amount := t.amount, created_at := t.timestamp,
               status := "held", released := false }
      else s.escrow k }

/-- Model of `MockBlockchainLedger.create_transaction`: build a `"pending"` transaction
with a generated id, append it to the transactions array, and add the held
escrow entry. -/
def create_transaction (s : LedgerState) (purchase_request : PurchaseRequest)
    (seller : String) (now : String) : Transaction × LedgerState :=
  let tx_id := generate_tx_id purchase_request.cid purchase_request.buyer
      purchase_request.amount now
  let transaction : Transaction :=
    { tx_id := tx_id
      cid := purchase_request.cid
      buyer := purchase_request.buyer
      seller := seller
      amount := purchase_request.amount
      timestamp := now
      status := "pending"
      escrow_released := false }
  let s1 : LedgerState := { s with transactions := s.transactions ++ [transaction] }
  (transaction, add_to_escrow s1 transaction)

/-- Model of `MockBlockchainLedger.verify_payment`: the mock payment policy — any
amount `> 0` is accepted, regardless of the transaction id. -/
def verify_payment (tx_id : String) (payment_amount : Rat) : Bool :=
  if payment_amount ≤ 0 then false else true

/-- The `for tx in transactions: if tx["tx_id"] == tx_id: ...; break` loop of
`complete_transaction` / `fail_transaction`: rewrite the first list element
satisfying `p`, or report `none` when no element matches (the loop leaves
`transaction_updated` false and the file is not rewritten). -/
def updateFirstMatch {α : Type} (p : α → Bool) (f : α → α) : List α → Option (List α)
  | [] => none
  | t :: ts => if p t then some (f t :: ts) else (updateFirstMatch p f ts).map (t :: ·)

/-- Model of `MockBlockchainLedger.complete_transaction`: reject when payment
verification fails; otherwise mark the first transaction with the given id
`"completed"` with escrow released, stamp the completion time, and flip its
escrow entry (when present) to `"released"`.  Returns `false` with the state
untouched when verification fails or no transaction has the id. -/
def complete_transaction (s : LedgerState) (tx_id : String) (payment_amount : Rat)
    (now : String) : Bool × LedgerState :=
  if !(verify_payment tx_id payment_amount) then (false, s)
  else
    match updateFirstMatch (fun tx => tx.tx_id == tx_id)
        (fun tx => { tx with status := "completed", escrow_released := true,
                             completed_at := some now }) s.transactions with
    | none => (false, s)
    | some txs =>
      let s1 : LedgerState := { s with transactions := txs }
      match s1.escrow tx_id with
      | some e =>
        (true, { s1 with
                 escrow := fun k =>
                   if k = tx_id then
                     some { e with status := "released", released := true,
                                   released_at := some now }
                   else s1.escrow k })
      | none => (true, s1)

/-- Model of `MockBlockchainLedger.fail_transaction`: mark the first transaction with
the given id `"failed"` with the failure reason and time, and flip its escrow
entry (when present) to `"refunded"`.  Returns `false` with the state
untouched when no transaction has the id. -/
def fail_transaction (s : LedgerState) (tx_id : String) (reason : String)
    (now : String) : Bool × LedgerState :=
  match updateFirstMatch (fun tx => tx.tx_id == tx_id)
      (fun tx => { tx with status := "failed", failure_reason := some reason,
                           failed_at := some now }) s.transactions with
  | none => (false, s)
  | some txs =>
    let s1 : LedgerState := { s with transactions := txs }
    match s1.escrow tx_id with
    | some e =>
      (true, { s1 with
               escrow := fun k =>
                 if k = tx_id then
                   some { e with status := "refunded", refunded_at := some now }
                 else s1.escrow k })
    | none => (true, s1)

/-- Model of `MockBlockchainLedger.get_transaction`: the first transaction with the
given id, or `None`. -/
def get_transaction (s : LedgerState) (tx_id : String) : Option Transaction :=
  s.transactions.find? (fun tx => tx.tx_id == tx_id)

/-- Model of `MockBlockchainLedger.is_dataset_purchased`: whether some transaction has
this cid, this buyer, and status `"completed"`. -/
def is_dataset_purchased (s : LedgerState) (cid buyer : String) : Bool :=
  s.transactions.any (fun tx =>
    tx.cid == cid && tx.buyer == buyer && tx.status == "completed")

/-! ## Transaction routes (`routes/transactions.py`)

Each endpoint is a function from the stores' states to an outcome and the
new ledger state; an `HTTPException` is the failure outcome (`none` /
`false`).  Dataset metadata, as the routes read it (`metadata.get("uploader",
"unknown")`, `metadata.get("price", 0)`), is a record of the two optional
fields consulted. -/

/-- The fields of a dataset-metadata dict that `initiate_purchase` consults. -/
structure DatasetMeta where
  uploader : Option String
  price : Option Rat
deriving DecidableEq

/-- The dataset lookup at the head of `initiate_purchase`: the store's
metadata record, falling back to the seed-dataset list when the id starts
with `"seed"`. -/
def lookup_dataset_metadata (ipfs : IPFSState DatasetMeta)
    (seed_datasets : List (String × DatasetMeta)) (cid : String) :
    Option DatasetMeta :=
  match get_metadata ipfs cid with
  | some m => some m.base
  | none =>
    if cid.startsWith "seed" then
      (seed_datasets.find? (fun d => d.1 == cid)).map (·.2)
    else none

/-- Model of `initiate_purchase` (`POST /api/purchase`): look the dataset up in the
store (falling back to the seed list for ids starting `"seed"`), 404 when
absent, 400 when the offered amount is below the price or the buyer already
purchased the dataset, otherwise create the transaction.  Failures leave the
ledger unchanged. -/
def initiate_purchase (ipfs : IPFSState DatasetMeta)
    (seed_datasets : List (String × DatasetMeta)) (s : LedgerState)
    (request : PurchaseRequest) (now : String) :
    Option Transaction × LedgerState :=
  match lookup_dataset_metadata ipfs seed_datasets request.cid with
  | none => (none, s)
  | some md =>
    let seller := md.uploader.getD "unknown"
    let dataset_price := md.price.getD 0
    if request.amount < dataset_price then (none, s)
    else if is_dataset_purchased s request.cid request.buyer then (none, s)
    else
      let r := create_transaction s request seller now
      (some r.1, r.2)

/-- Model of `complete_payment` (`POST /api/pay`): 404 when the transaction is
missing, 400 when it is not pending; otherwise run
`complete_transaction`, and on verification failure mark the transaction
failed before reporting the 400. -/
def complete_payment (s : LedgerState) (tx_id : String) (payment_amount : Rat)
    (now : String) : Bool × LedgerState :=
  match get_transaction s tx_id with
  | none => (false, s)
  | some transaction =>
    if transaction.status ≠ "pending" then (false, s)
    else
      let r := complete_transaction s tx_id payment_amount now
      if !r.1 then
        (false, (fail_transaction r.2 tx_id "Payment verification failed" now).2)
      else (true, r.2)

/-- Model of `cancel_transaction` (`POST /api/transaction/{tx_id}/cancel`): 404 when
missing, 400 when not pending, otherwise mark the transaction failed with the
cancellation reason. -/
def cancel_transaction (s : LedgerState) (tx_id : String) (reason : String)
    (now : String) : Bool × LedgerState :=
  match get_transaction s tx_id with
  | none => (false, s)
  | some transaction =>
    if transaction.status ≠ "pending" then (false, s)
    else
      let r := fail_transaction s tx_id reason now
      (r.1, r.2)

/-! ## Concrete states

Small concrete stores and ledgers used to evaluate the code on explicit
inputs. -/

/-- The empty ledger (fresh `transactions.json` and `escrow.json`). -/
def ledger0 : LedgerState := ⟨[], fun _ => none⟩

/-- A purchase request for dataset `"X"` by buyer `"bob"` offering 10. -/
def reqX : PurchaseRequest := ⟨"X", "bob", 10⟩

/-- A transaction already in the terminal state `"failed"`. -/
def txFailed : Transaction :=
  { tx_id := "tx-f", cid := "X", buyer := "bob", seller := "alice", amount := 10,
    timestamp := "t0", status := "failed", escrow_released := false,
    failed_at := some "t1", failure_reason := some "Payment failed" }

/-- A ledger holding only `txFailed`, its escrow already refunded. -/
def ledgerFailed : LedgerState :=
  ⟨[txFailed],
   fun k => if k = "tx-f" then
      some { cid := "X", buyer := "bob", seller := "alice", amount := 10,
             created_at := "t0", status := "refunded", released := false,
             refunded_at := some "t1" }
    else none⟩

/-- A transaction already in the terminal state `"completed"`. -/
def txDone : Transaction :=
  { tx_id := "tx-c", cid := "X", buyer := "bob", seller := "alice", amount := 10,
    timestamp := "t0", status := "completed", escrow_released := true,
    completed_at := some "t1" }

/-- A ledger holding only `txDone`, its escrow already released. -/
def ledgerDone : LedgerState :=
  ⟨[txDone],
   fun k => if k = "tx-c" then
      some { cid := "X", buyer := "bob", seller := "alice", amount := 10,
             created_at := "t0", status := "released", released := true,
             released_at := some "t1" }
    else none⟩

/-- A store holding metadata for dataset `"X"` (price 10, uploader `"alice"`). -/
def ipfsX : IPFSState DatasetMeta :=
  ⟨fun _ => none,
   fun k => if k = "X" then
      some { base := { uploader := some "alice", price := some 10 },
             cid := "X", file_size := 8, stored_at := "t0",
             file_path := "storage/datasets/X.bin" }
    else none⟩

/-- The ledger after buyer `"bob"` opens a purchase of `"X"` at instant `"t1"`. -/
def ledgerA : LedgerState := (initiate_purchase ipfsX [] ledger0 reqX "t1").2

/-- The ledger after the same buyer opens a second purchase of `"X"` at
instant `"t2"`, while the first is still pending. -/
def ledgerB : LedgerState := (initiate_purchase ipfsX [] ledgerA reqX "t2").2

/-- The ledger after paying the first transaction (its generated id is the
SHA-256 prefix `"b666f9a9da28ce03"`). -/
def ledgerC : LedgerState := (complete_payment ledgerB "b666f9a9da28ce03" 10 "t3").2

/-- The ledger after also paying the second transaction (generated id
`"e5a5137238d22e7c"`). -/
def ledgerD : LedgerState := (complete_payment ledgerC "e5a5137238d22e7c" 10 "t4").2

/-- A ledger with a single pending transaction of amount 10, its escrow held. -/
def ledgerPending : LedgerState :=
  ⟨[{ tx_id := "tx1", cid := "X", buyer := "bob", seller := "alice", amount := 10,
      timestamp := "t0", status := "pending", escrow_released := false }],
   fun k => if k = "tx1" then
      some { cid := "X", buyer := "bob", seller := "alice", amount := 10,
             created_at := "t0", status := "held", released := false }
    else none⟩

/-! ## Theorems on concrete inputs -/

/-- C1: evaluation of the code at the failing input.  The claim says
`complete_transaction` on a transaction in a terminal state returns false
and changes nothing; the code, whose status check lives only in the HTTP
route, instead returns true on an already-`"failed"` transaction, rewrites
it to `"completed"`, and flips its refunded escrow entry to `"released"`. -/
theorem C1_code_evaluation :
    (complete_transaction ledgerFailed "tx-f" 10 "t9").1 = true ∧
    (complete_transaction ledgerFailed "tx-f" 10 "t9").2.transactions.map
      Transaction.status = ["completed"] ∧
    ((complete_transaction ledgerFailed "tx-f" 10 "t9").2.escrow "tx-f").map
      EscrowEntry.status = some "released" := by
  decide

/-- C3: evaluation of the code at the failing input.  The claim says
`fail_transaction` on a transaction not in `"pending"` returns false and
changes nothing; the code instead returns true on an already-`"completed"`
transaction, rewrites it to `"failed"`, and flips its released escrow entry
to `"refunded"`. -/
theorem C3_code_evaluation :
    (fail_transaction ledgerDone "tx-c" "Cancelled by user" "t9").1 = true ∧
    (fail_transaction ledgerDone "tx-c" "Cancelled by user" "t9").2.transactions.map
      Transaction.status = ["failed"] ∧
    ((fail_transaction ledgerDone "tx-c" "Cancelled by user" "t9").2.escrow "tx-c").map
      EscrowEntry.status = some "refunded" := by
  decide

/-- C9: evaluation of the code at the failing input.  Two distinct creations
(the second appends to a ledger already holding the first) for the same
`(objectId, buyer, amount)` at the same instant produce the same transaction
id, because `generate_tx_id` is a function of exactly those four values —
there is no sequence counter or random salt. -/
theorem C9_code_evaluation :
    (create_transaction (create_transaction ledger0 reqX "alice" "t1").2 reqX "alice"
        "t1").2.transactions.length = 2 ∧
    (create_transaction ledger0 reqX "alice" "t1").1.tx_id =
      (create_transaction (create_transaction ledger0 reqX "alice" "t1").2 reqX "alice"
        "t1").1.tx_id :=
  ⟨rfl, rfl⟩

/-- C2: counterexample to completed-pair uniqueness as an invariant of every
reachable ledger state.  From the empty ledger, and only through the HTTP
routes, buyer `"bob"` opens two purchases of dataset `"X"` while neither is
completed (the duplicate check watches only `"completed"` transactions, so
the second is admitted), then pays both; each step succeeds, and the final
reachable state `ledgerD` holds two `"completed"` transactions for the same
`(objectId, buyer)` pair. -/
theorem C2_counterexample :
    (initiate_purchase ipfsX [] ledger0 reqX "t1").1.isSome = true ∧
    (initiate_purchase ipfsX [] ledgerA reqX "t2").1.isSome = true ∧
    (complete_payment ledgerB "b666f9a9da28ce03" 10 "t3").1 = true ∧
    (complete_payment ledgerC "e5a5137238d22e7c" 10 "t4").1 = true ∧
    ledgerD.transactions.countP (fun tx =>
      tx.cid == "X" && tx.buyer == "bob" && tx.status == "completed") = 2 := by
  decide

attribute [irreducible] sha256hex compute_cid generate_tx_id

/-! ## Helper lemmas on the first-match rewrite -/

/-- The first-match rewrite finds an element exactly when some element
matches. -/
theorem updateFirstMatch_isSome {α : Type} (p : α → Bool) (f : α → α) (l : List α) :
    (updateFirstMatch p f l).isSome = l.any p := by
  induction l with
  | nil => simp [updateFirstMatch]
  | cons x xs ih =>
    by_cases hx : p x <;> simp [updateFirstMatch, hx, ih]

/-- Rewriting the first match preserves a `P`-witness, provided the matched
element (the one `find?` returns) does not itself carry the witness. -/
theorem any_of_updateFirstMatch {α : Type} {p : α → Bool} {f : α → α} {P : α → Bool}
    {l l' : List α} {t : α} (hu : updateFirstMatch p f l = some l')
    (hf : l.find? p = some t) (hPt : P t = false) (hany : l.any P = true) :
    l'.any P = true := by
  induction l generalizing l' with
  | nil => simp [updateFirstMatch] at hu
  | cons x xs ih =>
    by_cases hx : p x
    · rw [List.find?_cons_of_pos _ hx] at hf
      injection hf with hf
      subst hf
      simp [updateFirstMatch, hx] at hu
      subst hu
      rw [List.any_cons, hPt, Bool.false_or] at hany
      simp [List.any_cons, hany]
    · rw [List.find?_cons_of_neg _ hx] at hf
      simp [updateFirstMatch, hx] at hu
      obtain ⟨xs', hxs', rfl⟩ := hu
      cases hPx : P x with
      | true => simp [List.any_cons, hPx]
      | false =>
        rw [List.any_cons, hPx, Bool.false_or] at hany
        simp [List.any_cons, ih hxs' hf hany]

/-- When nothing in the prefix matches and the appended element does, the
first-match rewrite rewrites exactly the appended element. -/
theorem updateFirstMatch_append_last {α : Type} (p : α → Bool) (f : α → α)
    (l : List α) (t : α) (hl : ∀ x ∈ l, p x = false) (ht : p t = true) :
    updateFirstMatch p f (l ++ [t]) = some (l ++ [f t]) := by
  induction l with
  | nil => simp [updateFirstMatch, ht]
  | cons x xs ih =>
    have hx : p x = false := hl x (by simp)
    have ih' := ih (fun y hy => hl y (by simp [hy]))
    simp [updateFirstMatch, hx, ih']

/-- When verification passes and some transaction matches,
`complete_transaction` returns true and its transaction list is the
first-match rewrite. -/
theorem complete_transaction_result {s : LedgerState} {tx_id : String} {p : Rat}
    {now : String} {l' : List Transaction}
    (hv : verify_payment tx_id p = true)
    (hu : updateFirstMatch (fun tx => tx.tx_id == tx_id)
      (fun tx => { tx with status := "completed", escrow_released := true,
                           completed_at := some now }) s.transactions = some l') :
    (complete_transaction s tx_id p now).1 = true ∧
    (complete_transaction s tx_id p now).2.transactions = l' := by
  unfold complete_transaction
  rw [hv, hu]
  cases h : s.escrow tx_id <;> simp [h]

/-- When some transaction matches, `fail_transaction` returns true and its
transaction list is the first-match rewrite. -/
theorem fail_transaction_result {s : LedgerState} {tx_id reason now : String}
    {l' : List Transaction}
    (hu : updateFirstMatch (fun tx => tx.tx_id == tx_id)
      (fun tx => { tx with status := "failed", failure_reason := some reason,
                           failed_at := some now }) s.transactions = some l') :
    (fail_transaction s tx_id reason now).1 = true ∧
    (fail_transaction s tx_id reason now).2.transactions = l' := by
  unfold fail_transaction
  rw [hu]
  cases h : s.escrow tx_id <;> simp [h]

/-- Failed verification leaves `complete_transaction` a strict no-op. -/
theorem complete_transaction_of_verify_false (s : LedgerState) (tx_id : String)
    (p : Rat) (now : String) (hv : verify_payment tx_id p = false) :
    complete_transaction s tx_id p now = (false, s) := by
  simp [complete_transaction, hv]

/-- A pending transaction never witnesses the purchased predicate. -/
theorem purchased_pred_false_of_pending {tx : Transaction} (c b : String)
    (h : tx.status = "pending") :
    (tx.cid == c && tx.buyer == b && tx.status == "completed") = false := by
  simp [h]

/-! ## Claim theorems -/

/-- C2 (amended): `initiate_purchase` is rejected — no transaction record and
no escrow entry are created, the ledger state is returned unchanged —
whenever a `"completed"` transaction already exists for the request's
`(objectId, buyer)` pair.  (The unamended claim also asserted completed-pair
uniqueness in every reachable state, refuted by `C2_counterexample`.) -/
theorem C2_duplicate_purchase_rejected (ipfs : IPFSState DatasetMeta)
    (seeds : List (String × DatasetMeta)) (s : LedgerState)
    (req : PurchaseRequest) (now : String)
    (h : is_dataset_purchased s req.cid req.buyer = true) :
    initiate_purchase ipfs seeds s req now = (none, s) := by
  unfold initiate_purchase
  cases hm : lookup_dataset_metadata ipfs seeds req.cid with
  | none => rfl
  | some md =>
    simp only
    by_cases hprice : req.amount < md.price.getD 0
    · simp [hprice]
    · simp [hprice, h]

/-- Witness for C2: on a concrete ledger already holding a completed purchase
of `"X"` by `"bob"`, a new purchase request is rejected with the state
unchanged. -/
theorem C2_witness :
    is_dataset_purchased ledgerDone "X" "bob" = true ∧
    initiate_purchase ipfsX [] ledgerDone reqX "t5" = (none, ledgerDone) :=
  ⟨by decide, C2_duplicate_purchase_rejected ipfsX [] ledgerDone reqX "t5" (by decide)⟩

/-- C4: `is_dataset_purchased` is true exactly when some `"completed"`
transaction for the pair exists; after `create_transaction` and
`complete_transaction` succeed for a fresh transaction id, it is true for
that pair; and it stays true across every further call of the three
transaction routes (purchase, payment, cancellation). -/
theorem C4_is_purchased_iff_completed :
    (∀ (s : LedgerState) (c b : String),
      is_dataset_purchased s c b = true ↔
        ∃ tx ∈ s.transactions, tx.cid = c ∧ tx.buyer = b ∧ tx.status = "completed") ∧
    (∀ (s : LedgerState) (req : PurchaseRequest) (seller t : String) (p : Rat) (t' : String),
      0 < p →
      (∀ tx ∈ s.transactions, tx.tx_id ≠ generate_tx_id req.cid req.buyer req.amount t) →
      (complete_transaction (create_transaction s req seller t).2
        (create_transaction s req seller t).1.tx_id p t').1 = true ∧
      is_dataset_purchased (complete_transaction (create_transaction s req seller t).2
        (create_transaction s req seller t).1.tx_id p t').2 req.cid req.buyer = true) ∧
    (∀ (ipfs : IPFSState DatasetMeta) (seeds : List (String × DatasetMeta))
        (s : LedgerState) (req : PurchaseRequest) (t c b : String),
      is_dataset_purchased s c b = true →
      is_dataset_purchased (initiate_purchase ipfs seeds s req t).2 c b = true) ∧
    (∀ (s : LedgerState) (txid : String) (p : Rat) (t c b : String),
      is_dataset_purchased s c b = true →
      is_dataset_purchased (complete_payment s txid p t).2 c b = true) ∧
    (∀ (s : LedgerState) (txid reason t c b : String),
      is_dataset_purchased s c b = true →
      is_dataset_purchased (cancel_transaction s txid reason t).2 c b = true) := by
  refine ⟨?_, ?_, ?_, ?_, ?_⟩
  · intro s c b
    simp [is_dataset_purchased, List.any_eq_true, and_assoc]
  · intro s req seller t p t' hp hfresh
    have hv : verify_payment (create_transaction s req seller t).1.tx_id p = true := by
      simp [verify_payment, not_le.mpr hp]
    have htxs : (create_transaction s req seller t).2.transactions =
        s.transactions ++ [(create_transaction s req seller t).1] := rfl
    have hid : (create_transaction s req seller t).1.tx_id =
        generate_tx_id req.cid req.buyer req.amount t := rfl
    have hu := updateFirstMatch_append_last
      (fun tx => tx.tx_id == (create_transaction s req seller t).1.tx_id)
      (fun tx => { tx with status := "completed", escrow_released := true,
                           completed_at := some t' })
      s.transactions (create_transaction s req seller t).1
      (fun x hx => by simp [hid]; exact hfresh x hx)
      (by simp)
    rw [← htxs] at hu
    obtain ⟨h1, h2⟩ := complete_transaction_result hv hu
    refine ⟨h1, ?_⟩
    rw [is_dataset_purchased, h2]
    simp [create_transaction]
  · intro ipfs seeds s req t c b h
    unfold initiate_purchase
    cases hm : lookup_dataset_metadata ipfs seeds req.cid with
    | none => simpa using h
    | some md =>
      simp only
      by_cases hprice : req.amount < md.price.getD 0
      · simpa [hprice] using h
      · by_cases hpur : is_dataset_purchased s req.cid req.buyer = true
        · simpa [hprice, hpur] using h
        · simp only [hprice, hpur, if_false, Bool.false_eq_true]
          rw [is_dataset_purchased] at h ⊢
          have htx : (create_transaction s req (md.uploader.getD "unknown") t).2.transactions =
              s.transactions ++ [(create_transaction s req (md.uploader.getD "unknown") t).1] := rfl
          rw [htx, List.any_append, h]
          simp
  · intro s txid p t c b h
    unfold complete_payment
    cases hg : get_transaction s txid with
    | none => simpa using h
    | some tr =>
      by_cases hst : tr.status = "pending"
      · have hfind : s.transactions.find? (fun tx => tx.tx_id == txid) = some tr := hg
        have hq := List.find?_some hfind
        have hmem := List.mem_of_find?_eq_some hfind
        have hPt : (tr.cid == c && tr.buyer == b && tr.status == "completed") = false :=
          purchased_pred_false_of_pending c b hst
        cases hv : verify_payment txid p with
        | false =>
          have hct := complete_transaction_of_verify_false s txid p t hv
          have hsome : (updateFirstMatch (fun tx => tx.tx_id == txid)
              (fun tx => { tx with status := "failed",
                                   failure_reason := some "Payment verification failed",
                                   failed_at := some t }) s.transactions).isSome = true := by
            rw [updateFirstMatch_isSome]
            exact List.any_eq_true.mpr ⟨tr, hmem, hq⟩
          obtain ⟨l', hl'⟩ := Option.isSome_iff_exists.mp hsome
          obtain ⟨hf1, hf2⟩ := fail_transaction_result hl'
          have hany := any_of_updateFirstMatch hl' hfind hPt h
          simp [hst, hct, is_dataset_purchased, hf2, hany]
        | true =>
          have hsome : (updateFirstMatch (fun tx => tx.tx_id == txid)
              (fun tx => { tx with status := "completed", escrow_released := true,
                                   completed_at := some t }) s.transactions).isSome = true := by
            rw [updateFirstMatch_isSome]
            exact List.any_eq_true.mpr ⟨tr, hmem, hq⟩
          obtain ⟨l', hl'⟩ := Option.isSome_iff_exists.mp hsome
          obtain ⟨hc1, hc2⟩ := complete_transaction_result hv hl'
          have hany := any_of_updateFirstMatch hl' hfind hPt h
          simp [hst, hc1, hc2, is_dataset_purchased, hany]
      · simpa [hst] using h
  · intro s txid reason t c b h
    unfold cancel_transaction
    cases hg : get_transaction s txid with
    | none => simpa using h
    | some tr =>
      by_cases hst : tr.status = "pending"
      · have hfind : s.transactions.find? (fun tx => tx.tx_id == txid) = some tr := hg
        have hq := List.find?_some hfind
        have hmem := List.mem_of_find?_eq_some hfind
        have hPt : (tr.cid == c && tr.buyer == b && tr.status == "completed") = false :=
          purchased_pred_false_of_pending c b hst
        have hsome : (updateFirstMatch (fun tx => tx.tx_id == txid)
            (fun tx => { tx with status := "failed", failure_reason := some reason,
                                 failed_at := some t }) s.transactions).isSome = true := by
          rw [updateFirstMatch_isSome]
          exact List.any_eq_true.mpr ⟨tr, hmem, hq⟩
        obtain ⟨l', hl'⟩ := Option.isSome_iff_exists.mp hsome
        obtain ⟨hf1, hf2⟩ := fail_transaction_result hl'
        have hany := any_of_updateFirstMatch hl' hfind hPt h
        simp [hst, is_dataset_purchased, hf2, hany]
      · simpa [hst] using h

/-- Witness for C4: from the empty ledger, creating and completing a purchase
of `"X"` by `"bob"` succeeds and makes `is_dataset_purchased` true. -/
theorem C4_witness :
    (complete_transaction (create_transaction ledger0 reqX "alice" "t1").2
      (create_transaction ledger0 reqX "alice" "t1").1.tx_id 10 "t2").1 = true ∧
    is_dataset_purchased (complete_transaction (create_transaction ledger0 reqX "alice" "t1").2
      (create_transaction ledger0 reqX "alice" "t1").1.tx_id 10 "t2").2
      reqX.cid reqX.buyer = true := by
  have h := C4_is_purchased_iff_completed.2.1 ledger0 reqX "alice" "t1" 10 "t2"
    (by decide) (by intro tx htx; simp [ledger0] at htx)
  exact ⟨h.1, h.2⟩

/-- C5: retrieving with the id returned by `store_file` returns exactly the
stored bytes — the content store round-trips every blob and metadata map. -/
theorem C5_store_retrieve_roundtrip {M : Type} (s : IPFSState M) (B : List Nat)
    (m : M) (now : String) :
    retrieve_file (store_file s B m now).2 (store_file s B m now).1 = some B := by
  simp [store_file, retrieve_file]

/-- C6: the content identifier is a function of the blob's bytes alone — any
two stores of the same bytes, from any states with any metadata, return the
same id — and re-storing the same blob is idempotent: same id, the blob map
unchanged (no duplicated storage), and the metadata record refreshed to the
second call's metadata and timestamp. -/
theorem C6_cid_deterministic_store_idempotent :
    (∀ (M : Type) (s s' : IPFSState M) (B : List Nat) (m m' : M) (t t' : String),
      (store_file s B m t).1 = (store_file s' B m' t').1) ∧
    (∀ (M : Type) (s : IPFSState M) (B : List Nat) (m1 m2 : M) (t1 t2 : String),
      (store_file (store_file s B m1 t1).2 B m2 t2).1 = (store_file s B m1 t1).1 ∧
      (store_file (store_file s B m1 t1).2 B m2 t2).2.files = (store_file s B m1 t1).2.files ∧
      get_metadata (store_file (store_file s B m1 t1).2 B m2 t2).2 (store_file s B m1 t1).1 =
        some ⟨m2, compute_cid B, B.length, t2, "storage/datasets/" ++ compute_cid B ++ ".bin"⟩) := by
  refine ⟨fun M s s' B m m' t t' => rfl, fun M s B m1 m2 t1 t2 => ⟨rfl, ?_, ?_⟩⟩
  · funext k
    by_cases hk : k = compute_cid B <;> simp [store_file, hk]
  · simp [store_file, get_metadata]

/-- C7: `verify_payment` is false for every amount `≤ 0` and true for every
amount `> 0`, whatever the transaction id; consequently
`complete_transaction` with a non-positive amount returns false and leaves
the whole ledger state untouched. -/
theorem C7_verify_payment_sign :
    (∀ (tx_id : String) (p : Rat), p ≤ 0 → verify_payment tx_id p = false) ∧
    (∀ (tx_id : String) (p : Rat), 0 < p → verify_payment tx_id p = true) ∧
    (∀ (s : LedgerState) (tx_id : String) (p : Rat) (now : String), p ≤ 0 →
      complete_transaction s tx_id p now = (false, s)) := by
  refine ⟨fun t p h => by simp [verify_payment, h],
          fun t p h => by simp [verify_payment, not_le.mpr h],
          fun s t p now h => by simp [complete_transaction, verify_payment, h]⟩

/-- Witness for C7: concrete evaluations at amounts `-1` and `5`. -/
theorem C7_witness :
    ((-1 : Rat) ≤ 0 ∧ verify_payment "tx" (-1) = false) ∧
    ((0 : Rat) < 5 ∧ verify_payment "tx" 5 = true) ∧
    complete_transaction ledger0 "tx" (-1) "now" = (false, ledger0) :=
  ⟨⟨by decide, C7_verify_payment_sign.1 "tx" (-1) (by decide)⟩,
   ⟨by decide, C7_verify_payment_sign.2.1 "tx" 5 (by decide)⟩,
   C7_verify_payment_sign.2.2 ledger0 "tx" (-1) "now" (by decide)⟩

/-- C8: `delete_file` returns true exactly when the blob or the metadata
record existed, and afterwards both `retrieve_file` and `get_metadata`
report nothing for that id. -/
theorem C8_delete_removes_both (M : Type) (s : IPFSState M) (cid : String) :
    ((delete_file s cid).1 = true ↔
      (s.files cid).isSome = true ∨ (s.metadata cid).isSome = true) ∧
    retrieve_file (delete_file s cid).2 cid = none ∧
    get_metadata (delete_file s cid).2 cid = none := by
  refine ⟨?_, ?_, ?_⟩ <;> simp [delete_file, retrieve_file, get_metadata]

/-- C10: `complete_transaction` never consults the transaction's recorded
amount — on any ledger holding a pending transaction with the given id it
succeeds for every positive payment amount, however small. -/
theorem C10_payment_amount_not_compared (s : LedgerState) (tx_id : String) (p : Rat)
    (now : String) (tx : Transaction) (hmem : tx ∈ s.transactions)
    (hid : tx.tx_id = tx_id) (hst : tx.status = "pending") (hp : 0 < p) :
    (complete_transaction s tx_id p now).1 = true := by
  have hv : verify_payment tx_id p = true := by
    simp [verify_payment, not_le.mpr hp]
  have hsome : (updateFirstMatch (fun tx => tx.tx_id == tx_id)
      (fun tx => { tx with status := "completed", escrow_released := true,
                           completed_at := some now }) s.transactions).isSome = true := by
    rw [updateFirstMatch_isSome]
    exact List.any_eq_true.mpr ⟨tx, hmem, by simp [hid]⟩
  unfold complete_transaction
  rw [hv]
  simp only [Bool.not_true, Bool.false_eq_true, if_false]
  obtain ⟨l', hl'⟩ := Option.isSome_iff_exists.mp hsome
  rw [hl']
  cases h : s.escrow tx_id <;> simp

/-- Witness for C10: a pending transaction recorded with amount 10 is
completed by a payment of 1. -/
theorem C10_witness :
    (complete_transaction ledgerPending "tx1" 1 "t1").1 = true :=
  C10_payment_amount_not_compared ledgerPending "tx1" 1 "t1"
    { tx_id := "tx1", cid := "X", buyer := "bob", seller := "alice", amount := 10,
      timestamp := "t0", status := "pending", escrow_released := false }
    (by simp [ledgerPending]) rfl rfl (by decide)

end Market
